import Mathlib

/-!
Verification of the portier-broker configuration assembly layer
(`src/config/mod.rs`, `src/main.rs`) and of the Store contract described in
the specification. Rust `Duration` values are modelled as `Nat` seconds,
`PathBuf` as `String`, and agent spawning as a pure wrapper; fallible
construction is modelled with `Except`, and `.expect(..)` panics with a
dedicated result constructor.
-/

namespace Portier

/-- Signing algorithms referenced by the configuration layer. Only `Rs256`
appears in the configuration source; the spec mentions at least one other
algorithm, modelled here as `es256`. -/
inductive SigningAlgorithm
  | rs256
  | es256
  deriving DecidableEq, Repr

/-- Error type of `ManualKeys::new`, modelled as its descriptive message. -/
def ManualKeysError := String

instance : DecidableEq ManualKeysError := inferInstanceAs (DecidableEq String)

instance : Repr ManualKeysError := inferInstanceAs (Repr String)

/-- Union of all possible error types seen while parsing, from `ConfigError`
in `src/config/mod.rs`. Error payloads are modelled as their messages. -/
inductive ConfigError
  | custom (msg : String)
  | io (msg : String)
  | toml (msg : String)
  | manualKeys (e : ManualKeysError)
  | domainOverride (e : String)
  deriving DecidableEq, Repr

/-- Rate limit configuration, from the `limits` module: a maximum count per
fixed window. -/
structure LimitConfig where
  max_count : Nat
  window_secs : Nat
  deriving DecidableEq, Repr

/-- `LimitConfig::per_minute`. -/
def LimitConfig.per_minute (n : Nat) : LimitConfig :=
  { max_count := n, window_secs := 60 }

/-- `SecureRandom`, modelled as opaque unit state. -/
def SecureRandom := Unit

instance : DecidableEq SecureRandom := inferInstanceAs (DecidableEq Unit)

/-- `FetchAgent`, modelled as opaque unit state. -/
def FetchAgent := Unit

instance : DecidableEq FetchAgent := inferInstanceAs (DecidableEq Unit)

/-- A handle to an agent-wrapped state, from `utils::agent::Addr`. The agent
runtime serializes access; for configuration wiring only the identity of the
wrapped state matters. -/
structure Addr (α : Type) where
  state : α
  deriving DecidableEq, Repr

/-- `spawn_agent`: wrap a state object into an agent and return its handle. -/
def spawn_agent {α : Type} (x : α) : Addr α := ⟨x⟩

/-- Store configuration intermediate enum, from `StoreConfig` in
`src/config/mod.rs`. All three variants are modelled; whether the redis and
rusqlite variants are compiled in is a build feature, passed explicitly. -/
inductive StoreConfig
  | redis (url : String)
  | rusqlite (db : String)
  | memory
  deriving DecidableEq, Repr

/-- `StoreConfig::from_options`. The `featRedis` and `featRusqlite` flags
model the `redis` and `rusqlite` cargo build features guarding the match
arms. Arms appear in source order. -/
def StoreConfig.from_options (featRedis featRusqlite : Bool)
    (redis_url : Option String) (sqlite_db : Option String)
    (memory_storage : Bool) : Except ConfigError StoreConfig :=
  match redis_url, sqlite_db, memory_storage with
  | some url, none, false =>
    if featRedis then .ok (.redis url)
    else .error (.custom "Redis storage requested, but this build does not support it.")
  | none, some db, false =>
    if featRusqlite then .ok (.rusqlite db)
    else .error (.custom "SQLite storage requested, but this build does not support it.")
  | none, none, true => .ok .memory
  | none, none, false =>
    .error (.custom "Must specify one of redis_url, sqlite_db or memory_storage")
  | _, _, _ =>
    .error (.custom "Can only specify one of redis_url, sqlite_db or memory_storage")

/-- Number of store options supplied to `from_options`. -/
def suppliedCount (redis_url : Option String) (sqlite_db : Option String)
    (memory_storage : Bool) : Nat :=
  (if redis_url.isSome then 1 else 0) + (if sqlite_db.isSome then 1 else 0) +
    (if memory_storage then 1 else 0)

/-- Whether the single chosen backend is compiled into the build: redis
requires the redis feature, sqlite the rusqlite feature, memory is always
available. -/
def chosenBackendSupported (featRedis featRusqlite : Bool)
    (redis_url : Option String) (sqlite_db : Option String)
    (memory_storage : Bool) : Bool :=
  if redis_url.isSome then featRedis
  else if sqlite_db.isSome then featRusqlite
  else memory_storage

/-- Webfinger link relation types; only the Google relation is used by the
configuration layer. -/
inductive Relation
  | google
  deriving DecidableEq, Repr

/-- A webfinger link, from `webfinger::Link`; the parsed `href` URL is
modelled as its string form. -/
structure Link where
  rel : Relation
  href : String
  deriving DecidableEq, Repr

/-- Origin of the hosted Google bridge, from `bridges::oidc::GOOGLE_IDP_ORIGIN`.
Modelled from the spec: the constant well-known Google identity provider
origin; its exact text does not affect the configuration logic. -/
def GOOGLE_IDP_ORIGIN : String := "https://accounts.google.com"

/-- The default link list inserted for hosted-Google domains in
`ConfigBuilder::done`. The source parses `GOOGLE_IDP_ORIGIN` with an
`expect` that cannot fail on the constant. -/
def googleLinks : List Link :=
  [{ rel := .google, href := GOOGLE_IDP_ORIGIN }]

/-- Template store, modelled as carrying the data directory it was loaded
from. -/
structure Templates where
  data_dir : String
  deriving DecidableEq, Repr

/-- `Templates::new`. -/
def Templates.new (dir : String) : Templates := ⟨dir⟩

/-- Translation catalog, modelled as carrying the data directory it was
loaded from. -/
structure I18n where
  data_dir : String
  deriving DecidableEq, Repr

/-- `I18n::new`. -/
def I18n.new (dir : String) : I18n := ⟨dir⟩

/-- Parameters for `StoreConfig::spawn_store`, from `StoreParams`. -/
structure StoreParams where
  session_ttl : Nat
  cache_ttl : Nat
  limit_per_email : LimitConfig
  fetcher : Addr FetchAgent
  rng : SecureRandom
  deriving DecidableEq

/-- The store object spawned for each backend, carrying the constructor
arguments of `RedisStore::new`, `RusqliteStore::new` and `MemoryStore::new`
respectively (the redis constructor also receives the rng, the sqlite and
memory ones do not). -/
inductive StoreBackend
  | redisStore (url : String) (session_ttl cache_ttl : Nat)
      (limit_per_email : LimitConfig) (fetcher : Addr FetchAgent) (rng : SecureRandom)
  | rusqliteStore (db : String) (session_ttl cache_ttl : Nat)
      (limit_per_email : LimitConfig) (fetcher : Addr FetchAgent)
  | memoryStore (session_ttl cache_ttl : Nat)
      (limit_per_email : LimitConfig) (fetcher : Addr FetchAgent)
  deriving DecidableEq

/-- An agent handle to a spawned store, standing for `Arc<dyn StoreSender>`. -/
def Store := Addr StoreBackend

instance : DecidableEq Store := inferInstanceAs (DecidableEq (Addr StoreBackend))

/-- `StoreConfig::spawn_store`: construct the backend store object and wrap
it in an agent. Backend initialization failures are process-fatal `expect`
calls in the source and are not modelled. -/
def StoreConfig.spawn_store (sc : StoreConfig) (params : StoreParams) : Store :=
  match sc with
  | .redis url =>
    spawn_agent (.redisStore url params.session_ttl params.cache_ttl
      params.limit_per_email params.fetcher params.rng)
  | .rusqlite db =>
    spawn_agent (.rusqliteStore db params.session_ttl params.cache_ttl
      params.limit_per_email params.fetcher)
  | .memory =>
    spawn_agent (.memoryStore params.session_ttl params.cache_ttl
      params.limit_per_email params.fetcher)

/-- Manual key manager state. Modelled from the spec: `ManualKeys` holds an
immutable key per requested signing algorithm, loaded from key files or
inline key text; its construction logic lives outside the configuration
sources, so `ConfigBuilder.done` below is parameterized over it. -/
structure ManualKeys where
  keys : List (SigningAlgorithm × String)
  deriving DecidableEq

/-- Rotating key manager state as constructed by `RotatingKeys::new` in
`ConfigBuilder::done`: the store handle, the key TTL, the signing
algorithms and the RSA key generation command. -/
structure RotatingKeys where
  store : Store
  keys_ttl : Nat
  signing_algs : List SigningAlgorithm
  generate_rsa_command : List String
  rng : SecureRandom
  deriving DecidableEq

/-- `RotatingKeys::new`. -/
def RotatingKeys.new (store : Store) (keys_ttl : Nat)
    (signing_algs : List SigningAlgorithm) (generate_rsa_command : List String)
    (rng : SecureRandom) : RotatingKeys :=
  ⟨store, keys_ttl, signing_algs, generate_rsa_command, rng⟩

/-- The boxed key manager handle, standing for `Box<dyn KeyManagerSender>`:
an agent handle to either a `ManualKeys` or a `RotatingKeys` state. -/
inductive KeyManagerSender
  | manual (a : Addr ManualKeys)
  | rotating (a : Addr RotatingKeys)
  deriving DecidableEq

/-- The signature of `ManualKeys::new`; the implementation is outside the
configuration sources, so it is a parameter of `ConfigBuilder.done`. -/
def ManualKeysNew : Type :=
  List String → Option String → List SigningAlgorithm → SecureRandom →
    Except ManualKeysError ManualKeys

/-- The configuration builder, from `ConfigBuilder` in `src/config/mod.rs`. -/
structure ConfigBuilder where
  listen_ip : String
  listen_port : Nat
  public_url : Option String
  allowed_origins : Option (List String)
  data_dir : String
  static_ttl : Nat
  discovery_ttl : Nat
  keys_ttl : Nat
  token_ttl : Nat
  session_ttl : Nat
  cache_ttl : Nat
  keyfiles : List String
  keytext : Option String
  signing_algs : List SigningAlgorithm
  generate_rsa_command : List String
  redis_url : Option String
  sqlite_db : Option String
  memory_storage : Bool
  from_name : String
  from_address : Option String
  smtp_server : Option String
  smtp_username : Option String
  smtp_password : Option String
  limit_per_email : LimitConfig
  google_client_id : Option String
  domain_overrides : List (String × List Link)
  deriving DecidableEq

/-- `ConfigBuilder::new`, with the default values from the source. -/
def ConfigBuilder.new : ConfigBuilder where
  listen_ip := "127.0.0.1"
  listen_port := 3333
  public_url := none
  allowed_origins := none
  data_dir := ""
  static_ttl := 604800
  discovery_ttl := 604800
  keys_ttl := 86400
  token_ttl := 600
  session_ttl := 900
  cache_ttl := 3600
  keyfiles := []
  keytext := none
  signing_algs := [.rs256]
  generate_rsa_command := ["openssl", "genrsa", "2048"]
  redis_url := none
  sqlite_db := none
  memory_storage := false
  from_name := "Portier"
  from_address := none
  smtp_server := none
  smtp_username := none
  smtp_password := none
  limit_per_email := LimitConfig.per_minute 5
  google_client_id := none
  domain_overrides := []

/-- The final configuration, from `Config` in `src/config/mod.rs`. -/
structure Config where
  listen_ip : String
  listen_port : Nat
  public_url : String
  allowed_origins : Option (List String)
  static_ttl : Nat
  discovery_ttl : Nat
  keys_ttl : Nat
  token_ttl : Nat
  key_manager : KeyManagerSender
  signing_algs : List SigningAlgorithm
  store : Store
  from_name : String
  from_address : String
  smtp_server : String
  smtp_username : Option String
  smtp_password : Option String
  google_client_id : Option String
  domain_overrides : List (String × List Link)
  res_dir : String
  templates : Templates
  i18n : I18n
  rng : SecureRandom
  deriving DecidableEq

/-- Result of `ConfigBuilder::done`: a configuration, an error returned in
the `Result`, or a panic raised by an `expect` call. -/
inductive DoneResult
  | ok (c : Config)
  | err (e : ConfigError)
  | panic (msg : String)
  deriving DecidableEq

/-- A hash map insert; the map is modelled as an association list read
through `mapLookup`, so consing the new pair shadows any previous binding,
matching replace-on-insert semantics. -/
def mapInsert {α : Type} (m : List (String × α)) (k : String) (v : α) :
    List (String × α) :=
  (k, v) :: m

/-- Lookup in the association-list model of a hash map: the most recently
inserted binding for the key wins. -/
def mapLookup {α : Type} : List (String × α) → String → Option α
  | [], _ => none
  | (k, v) :: rest, d => if d = k then some v else mapLookup rest d

/-- The domain override map built in `ConfigBuilder::done`: defaults for the
hosted-Google domains when a Google client id is configured, then every
user-supplied override inserted on top. -/
def buildDomainOverrides (google_client_id : Option String)
    (user : List (String × List Link)) : List (String × List Link) :=
  let base : List (String × List Link) :=
    if google_client_id.isSome then
      mapInsert (mapInsert [] "gmail.com" googleLinks) "googlemail.com" googleLinks
    else []
  user.foldl (fun m p => mapInsert m p.1 p.2) base

/-- The `StoreParams` value built inside `ConfigBuilder::done`. -/
def ConfigBuilder.storeParams (b : ConfigBuilder) (rng : SecureRandom) :
    StoreParams :=
  { session_ttl := b.session_ttl
    cache_ttl := b.cache_ttl
    limit_per_email := b.limit_per_email
    fetcher := spawn_agent ()
    rng := rng }

/-- The key manager selection step of `ConfigBuilder::done`: manual keys
when key files or key text are supplied, otherwise rotating keys after the
RSA generation command check. -/
def selectKeyManager (manualNew : ManualKeysNew) (b : ConfigBuilder)
    (store : Store) (rng : SecureRandom) : Except ConfigError KeyManagerSender :=
  if !b.keyfiles.isEmpty || b.keytext.isSome then
    match manualNew b.keyfiles b.keytext b.signing_algs rng with
    | .error e => .error (.manualKeys e)
    | .ok km => .ok (.manual (spawn_agent km))
  else
    if b.signing_algs.contains .rs256 && b.generate_rsa_command.isEmpty then
      .error (.custom "generate_rsa_command is required for rotating RSA keys")
    else
      .ok (.rotating (spawn_agent
        (RotatingKeys.new store b.keys_ttl b.signing_algs b.generate_rsa_command rng)))

/-- `ConfigBuilder::done`. The build features and the external
`ManualKeys::new` implementation are parameters; the match and field order
follows the source, so the `expect` panics on `public_url`, `from_address`
and `smtp_server` fire in that order during `Config` construction. -/
def ConfigBuilder.done (featRedis featRusqlite : Bool)
    (manualNew : ManualKeysNew) (b : ConfigBuilder) : DoneResult :=
  match StoreConfig.from_options featRedis featRusqlite b.redis_url b.sqlite_db
      b.memory_storage with
  | .error e => .err e
  | .ok store_config =>
  if b.smtp_username.isNone != b.smtp_password.isNone then
    .err (.custom "only one of smtp username and password specified; provide both or neither")
  else
  match selectKeyManager manualNew b (store_config.spawn_store (b.storeParams ())) () with
  | .error e => .err e
  | .ok key_manager =>
  match b.public_url with
  | none => .panic "no public url configured"
  | some public_url =>
  match b.from_address with
  | none => .panic "no smtp from address configured"
  | some from_address =>
  match b.smtp_server with
  | none => .panic "no smtp outserver address configured"
  | some smtp_server =>
  .ok
    { listen_ip := b.listen_ip
      listen_port := b.listen_port
      public_url := public_url
      allowed_origins := b.allowed_origins
      static_ttl := b.static_ttl
      discovery_ttl := b.discovery_ttl
      keys_ttl := b.keys_ttl
      token_ttl := b.token_ttl
      key_manager := key_manager
      signing_algs := b.signing_algs
      store := store_config.spawn_store (b.storeParams ())
      from_name := b.from_name
      from_address := from_address
      smtp_server := smtp_server
      smtp_username := b.smtp_username
      smtp_password := b.smtp_password
      google_client_id := b.google_client_id
      domain_overrides := buildDomainOverrides b.google_client_id b.domain_overrides
      res_dir := b.data_dir ++ "/res"
      templates := Templates.new b.data_dir
      i18n := I18n.new b.data_dir
      rng := () }

/-- Extract the configuration from a successful `done` result. -/
def DoneResult.getOk : DoneResult → Option Config
  | .ok c => some c
  | _ => none

/-- A stand-in `ManualKeys::new` that always fails, as when a requested
algorithm has no corresponding supplied key. -/
def exampleManualNewErr : ManualKeysNew :=
  fun _ _ _ _ => .error "missing key for algorithm rs256"

/-- A stand-in `ManualKeys::new` that succeeds with one key per requested
algorithm. -/
def exampleManualNewOk : ManualKeysNew :=
  fun _ _ algs _ => .ok ⟨algs.map (fun a => (a, "key material"))⟩

/-- A fully valid builder using the in-memory store and rotating keys. -/
def exampleBuilderMemory : ConfigBuilder :=
  { ConfigBuilder.new with
    memory_storage := true
    public_url := some "https://broker.example.com"
    from_address := some "portier@example.com"
    smtp_server := some "localhost:25" }

/-- A valid builder that supplies inline manual key text. -/
def exampleBuilderManual : ConfigBuilder :=
  { exampleBuilderMemory with keytext := some "inline key text" }

/-- A builder that is valid except that no public URL is configured. -/
def exampleBuilderNoUrl : ConfigBuilder :=
  { exampleBuilderMemory with public_url := none }

/-- A builder with no store option and only an SMTP username supplied. -/
def exampleBuilderSmtpOnlyUser : ConfigBuilder :=
  { ConfigBuilder.new with smtp_username := some "user" }

/-- A builder with no store option and an empty RSA generation command. -/
def exampleBuilderNoRsaCommand : ConfigBuilder :=
  { ConfigBuilder.new with generate_rsa_command := [] }

/-- A valid in-memory builder with an empty RSA generation command. -/
def exampleBuilderMemoryNoRsa : ConfigBuilder :=
  { exampleBuilderMemory with generate_rsa_command := [] }

/-- A valid builder with a Google client id and a user override for one of
the hosted-Google domains. -/
def exampleBuilderGoogle : ConfigBuilder :=
  { exampleBuilderMemory with
    google_client_id := some "client-id"
    domain_overrides :=
      [("gmail.com", [{ rel := Relation.google, href := "https://alt.example.com" }])] }

/-- Parsed command line parameters, from `Args` in `src/main.rs`. -/
structure Args where
  arg_CONFIG : String
  flag_address : String
  flag_port : Nat
  deriving DecidableEq, Repr

/-- An IP address as produced by parsing the `--address` argument; the
dotted-quad v4 textual form is modelled, which suffices because the parse
result feeds only the printed message. -/
inductive IpAddr
  | v4 (a b c d : Nat)
  deriving DecidableEq, Repr

/-- Parse one decimal octet in the range 0 to 255. -/
def parseOctet (s : List Char) : Option Nat :=
  if s = [] then none
  else if s.all Char.isDigit then
    let n := s.foldl (fun acc c => acc * 10 + (c.toNat - 48)) 0
    if n ≤ 255 then some n else none
  else none

/-- Split a character list on the dot separator. -/
def splitOnDot : List Char → List (List Char)
  | [] => [[]]
  | c :: rest =>
    if c = '.' then [] :: splitOnDot rest
    else
      match splitOnDot rest with
      | [] => [[c]]
      | h :: t => (c :: h) :: t

/-- The `IpAddr::from_str` call in `main`, modelled for dotted-quad IPv4
text: four octets separated by dots. -/
def ipAddrFromStr (s : String) : Option IpAddr :=
  match (splitOnDot s.data).map parseOctet with
  | [some a, some b, some c, some d] => some (.v4 a b c d)
  | _ => none

/-- Display form of a socket address, as the listening message formats it. -/
def socketAddrDisplay (ip : IpAddr) (port : Nat) : String :=
  match ip with
  | .v4 a b c d =>
    toString a ++ "." ++ toString b ++ "." ++ toString c ++ "." ++ toString d
      ++ ":" ++ toString port

/-- Observable effects of `main` once the configuration is loaded: the
printed listening message and the address the HTTP server binds. -/
structure ServerRun where
  printedLine : String
  boundAddr : String
  deriving DecidableEq, Repr

/-- The tail of `main` in `src/main.rs`: parse the address argument with an
unwrap (modelled as `none` on failure), build the socket from the address
and port arguments, print the listening message for that socket, then bind
the HTTP server to the hard-coded literal address. -/
def mainRun (args : Args) : Option ServerRun :=
  match ipAddrFromStr args.flag_address with
  | none => none
  | some ip => some
    { printedLine := "Listening on http://" ++ socketAddrDisplay ip args.flag_port
      boundAddr := "0.0.0.0:3333" }

/-- Modelled from the spec: a stored value is either opaque bytes (session
and cache records) or an integer rate limit counter. The store
implementations themselves are outside the configuration sources. -/
inductive StoreValue
  | bytes (data : String)
  | counter (n : Nat)
  deriving DecidableEq, Repr

/-- Modelled from the spec: a store record `{ key, value, expires_at }`,
silently unreadable once `now >= expires_at`. Instants are seconds as
`Nat`. -/
structure StoreRecord where
  key : String
  value : StoreValue
  expires_at : Nat
  deriving DecidableEq, Repr

/-- Modelled from the spec: the in-memory store state, a collection of
records with lazy expiry enforced at access time. -/
structure MemoryStore where
  records : List StoreRecord
  deriving DecidableEq, Repr

/-- Find the record for a key, expired or not. -/
def findRecord (s : MemoryStore) (k : String) : Option StoreRecord :=
  s.records.find? (fun r => r.key == k)

/-- Remove every record for a key. -/
def removeRecords (l : List StoreRecord) (k : String) : List StoreRecord :=
  l.filter (fun r => !(r.key == k))

/-- Modelled from the spec: `get(key)` returns the value if a record exists
and the current time has not reached its expiry; it returns `None` if the
record is absent or expired and never returns an expired record. -/
def MemoryStore.get (s : MemoryStore) (now : Nat) (k : String) : Option StoreValue :=
  match findRecord s k with
  | some r => if r.expires_at ≤ now then none else some r.value
  | none => none

/-- Modelled from the spec: `put(key, value, ttl)` inserts or fully
replaces the record for the key with the given value and a fresh expiry. -/
def MemoryStore.put (s : MemoryStore) (now : Nat) (k : String) (v : String)
    (ttl : Nat) : MemoryStore :=
  ⟨⟨k, .bytes v, now + ttl⟩ :: removeRecords s.records k⟩

/-- Modelled from the spec: `increment(key, ttl)` atomically creates the
counter at 1 with the given ttl when the record is absent, expired or not a
counter, and otherwise increments the existing non-expired counter keeping
its expiry, returning the new value. -/
def MemoryStore.increment (s : MemoryStore) (now : Nat) (k : String)
    (ttl : Nat) : Nat × MemoryStore :=
  match findRecord s k with
  | some r =>
    if r.expires_at ≤ now then
      (1, ⟨⟨k, .counter 1, now + ttl⟩ :: removeRecords s.records k⟩)
    else
      match r.value with
      | .counter n => (n + 1, ⟨⟨k, .counter (n + 1), r.expires_at⟩ :: removeRecords s.records k⟩)
      | .bytes _ => (1, ⟨⟨k, .counter 1, now + ttl⟩ :: removeRecords s.records k⟩)
  | none => (1, ⟨⟨k, .counter 1, now + ttl⟩ :: removeRecords s.records k⟩)

/-- Modelled from the spec: `delete(key)` removes a record if present and
is a no-op if absent. -/
def MemoryStore.delete (s : MemoryStore) (k : String) : MemoryStore :=
  ⟨removeRecords s.records k⟩

/-- N increment calls on the same key issued by concurrent callers, applied
in arrival order: the agent runtime serializes requests, so the concurrent
scenario of the spec is the sequential composition of the calls. Returns
the list of returned counter values in order. -/
def incrementN (now : Nat) (k : String) (ttl : Nat) :
    Nat → MemoryStore → (List Nat × MemoryStore)
  | 0, s => ([], s)
  | n + 1, s =>
    let p := s.increment now k ttl
    let q := incrementN now k ttl n p.2
    (p.1 :: q.1, q.2)

end Portier

namespace Portier

/-- C1: `StoreConfig::from_options` succeeds exactly when precisely one of
the three store options is supplied and the chosen backend is compiled into
the build; no option gives the must-specify error, more than one gives the
can-only-specify error, and a single option whose backend is not compiled
in gives the matching descriptive unsupported-backend error. -/
theorem C1_from_options_exactly_one (featRedis featRusqlite : Bool)
    (redis_url sqlite_db : Option String) (memory_storage : Bool) :
    ((∃ c, StoreConfig.from_options featRedis featRusqlite redis_url sqlite_db memory_storage
        = .ok c) ↔
      suppliedCount redis_url sqlite_db memory_storage = 1 ∧
      chosenBackendSupported featRedis featRusqlite redis_url sqlite_db memory_storage = true) ∧
    (suppliedCount redis_url sqlite_db memory_storage = 0 →
      StoreConfig.from_options featRedis featRusqlite redis_url sqlite_db memory_storage
        = .error (.custom "Must specify one of redis_url, sqlite_db or memory_storage")) ∧
    (2 ≤ suppliedCount redis_url sqlite_db memory_storage →
      StoreConfig.from_options featRedis featRusqlite redis_url sqlite_db memory_storage
        = .error (.custom "Can only specify one of redis_url, sqlite_db or memory_storage")) ∧
    (redis_url.isSome = true → sqlite_db = none → memory_storage = false → featRedis = false →
      StoreConfig.from_options featRedis featRusqlite redis_url sqlite_db memory_storage
        = .error (.custom "Redis storage requested, but this build does not support it.")) ∧
    (redis_url = none → sqlite_db.isSome = true → memory_storage = false →
        featRusqlite = false →
      StoreConfig.from_options featRedis featRusqlite redis_url sqlite_db memory_storage
        = .error (.custom "SQLite storage requested, but this build does not support it.")) := by
  rcases redis_url with _ | u <;> rcases sqlite_db with _ | d <;>
    cases memory_storage <;> cases featRedis <;> cases featRusqlite <;>
    simp [StoreConfig.from_options, suppliedCount, chosenBackendSupported]

/-- C1 witness: with both features compiled in and only `memory_storage`
set, `from_options` succeeds, in line with the characterization. -/
theorem C1_from_options_exactly_one_witness :
    (∃ c, StoreConfig.from_options true true none none true = .ok c) ∧
    StoreConfig.from_options true true none (some "db.sqlite3") true
      = .error (.custom "Can only specify one of redis_url, sqlite_db or memory_storage") := by
  refine ⟨(C1_from_options_exactly_one true true none none true).1.mpr (by decide), ?_⟩
  exact (C1_from_options_exactly_one true true none (some "db.sqlite3") true).2.2.1 (by decide)


/-- Helper: every error of `from_options` is one of its four fixed custom
messages. -/
theorem from_options_error_shape (fr fs : Bool) (ru sq : Option String)
    (ms : Bool) (e : ConfigError)
    (h : StoreConfig.from_options fr fs ru sq ms = .error e) :
    e = .custom "Redis storage requested, but this build does not support it." ∨
    e = .custom "SQLite storage requested, but this build does not support it." ∨
    e = .custom "Must specify one of redis_url, sqlite_db or memory_storage" ∨
    e = .custom "Can only specify one of redis_url, sqlite_db or memory_storage" := by
  cases ru <;> cases sq <;> cases ms <;> cases fr <;> cases fs <;>
    simp [StoreConfig.from_options] at h <;> simp [h]

/-- Helper: every error of the key manager selection step is either a
wrapped manual keys error or the RSA generation command error. -/
theorem selectKeyManager_error_shape (mn : ManualKeysNew) (b : ConfigBuilder)
    (store : Store) (rng : SecureRandom) (e : ConfigError)
    (h : selectKeyManager mn b store rng = .error e) :
    (∃ m, e = .manualKeys m) ∨
    e = .custom "generate_rsa_command is required for rotating RSA keys" := by
  unfold selectKeyManager at h
  split at h
  · split at h
    · rename_i m hm
      left
      injection h with h2
      exact ⟨m, h2.symm⟩
    · simp at h
  · split at h
    · right
      injection h with h2
      exact h2.symm
    · simp at h

/-- C2: for every successful `ConfigBuilder::done` call, the store recorded
in the configuration is the one spawned from the parsed store options, and
the key manager is an agent-wrapped `ManualKeys` when key files or key text
were supplied (constructed by `ManualKeys::new` on the supplied material)
and otherwise an agent-wrapped `RotatingKeys` built from that same store
handle, the key TTL, the configured signing algorithms and the key
generation command. -/
theorem C2_done_key_manager_wiring (fr fs : Bool) (manualNew : ManualKeysNew)
    (b : ConfigBuilder) (c : Config)
    (h : ConfigBuilder.done fr fs manualNew b = .ok c) :
    (∃ sc, StoreConfig.from_options fr fs b.redis_url b.sqlite_db b.memory_storage
        = .ok sc ∧ c.store = sc.spawn_store (b.storeParams ())) ∧
    ((!b.keyfiles.isEmpty || b.keytext.isSome) = true →
      ∃ mk, manualNew b.keyfiles b.keytext b.signing_algs () = .ok mk ∧
        c.key_manager = .manual (spawn_agent mk)) ∧
    ((!b.keyfiles.isEmpty || b.keytext.isSome) = false →
      c.key_manager = .rotating (spawn_agent
        (RotatingKeys.new c.store b.keys_ttl b.signing_algs b.generate_rsa_command ()))) := by
  unfold ConfigBuilder.done at h
  split at h
  · simp at h
  rename_i sc hfo
  split at h
  · simp at h
  rename_i hsm
  split at h
  · simp at h
  rename_i km hkm
  split at h
  · simp at h
  rename_i pu hpu
  split at h
  · simp at h
  rename_i fa hfa
  split at h
  · simp at h
  rename_i ss hss
  cases h
  refine ⟨⟨sc, hfo, rfl⟩, ?_, ?_⟩
  · intro hman
    unfold selectKeyManager at hkm
    rw [hman] at hkm
    simp only [if_true] at hkm
    split at hkm
    · simp at hkm
    rename_i mk hmk
    exact ⟨mk, hmk, by injection hkm with h2; exact h2.symm⟩
  · intro hman
    unfold selectKeyManager at hkm
    rw [hman] at hkm
    simp only [Bool.false_eq_true, if_false] at hkm
    split at hkm
    · simp at hkm
    injection hkm with h2
    rw [← h2]

/-- C2 witness: the valid in-memory builder without manual key material
produces a configuration whose key manager is the rotating variant wired
to the configuration store handle. -/
theorem C2_done_key_manager_wiring_witness :
    ∃ c, ConfigBuilder.done false false exampleManualNewOk exampleBuilderMemory
        = .ok c ∧
      c.key_manager = .rotating (spawn_agent (RotatingKeys.new c.store
        exampleBuilderMemory.keys_ttl exampleBuilderMemory.signing_algs
        exampleBuilderMemory.generate_rsa_command ())) := by
  cases hdone : ConfigBuilder.done false false exampleManualNewOk exampleBuilderMemory with
  | ok c =>
    exact ⟨c, rfl,
      (C2_done_key_manager_wiring false false exampleManualNewOk exampleBuilderMemory
        c hdone).2.2 (by decide)⟩
  | err e =>
    have hsome : (ConfigBuilder.done false false exampleManualNewOk
        exampleBuilderMemory).getOk.isSome = true := rfl
    rw [hdone] at hsome
    simp [DoneResult.getOk] at hsome
  | panic m =>
    have hsome : (ConfigBuilder.done false false exampleManualNewOk
        exampleBuilderMemory).getOk.isSome = true := rfl
    rw [hdone] at hsome
    simp [DoneResult.getOk] at hsome

/-- C3: when manual key material is supplied and the external
`ManualKeys::new` construction fails, `done` returns the failure wrapped in
`ConfigError::ManualKeys`; the failure happens at construction, before any
configuration is produced. The hypotheses state that the store options and
SMTP credentials validate, which is what makes the construction attempt
reachable. -/
theorem C3_manual_keys_error_propagates (fr fs : Bool) (mn : ManualKeysNew)
    (b : ConfigBuilder) (sc : StoreConfig) (e : ManualKeysError)
    (hfo : StoreConfig.from_options fr fs b.redis_url b.sqlite_db b.memory_storage
      = .ok sc)
    (hsm : (b.smtp_username.isNone != b.smtp_password.isNone) = false)
    (hman : (!b.keyfiles.isEmpty || b.keytext.isSome) = true)
    (herr : mn b.keyfiles b.keytext b.signing_algs () = .error e) :
    ConfigBuilder.done fr fs mn b = .err (.manualKeys e) := by
  unfold ConfigBuilder.done
  rw [hfo]
  simp only [hsm, Bool.false_eq_true, if_false]
  unfold selectKeyManager
  rw [hman]
  simp only [if_true]
  rw [herr]

/-- C3 witness: a failing `ManualKeys::new` on a builder with inline key
text surfaces as a `ManualKeys` configuration error. -/
theorem C3_manual_keys_error_propagates_witness :
    ConfigBuilder.done false false exampleManualNewErr exampleBuilderManual
      = .err (.manualKeys "missing key for algorithm rs256") :=
  C3_manual_keys_error_propagates false false exampleManualNewErr
    exampleBuilderManual .memory "missing key for algorithm rs256"
    rfl rfl rfl rfl


/-- C4 counterexample: with no store option supplied and only an SMTP
username set, `done` reports the store option error, not the SMTP
credential error, so the SMTP error is not returned whenever exactly one
credential is supplied. -/
theorem C4_smtp_iff_counterexample :
    exampleBuilderSmtpOnlyUser.smtp_username.isSome = true ∧
    exampleBuilderSmtpOnlyUser.smtp_password.isSome = false ∧
    ConfigBuilder.done false false exampleManualNewOk exampleBuilderSmtpOnlyUser
      ≠ .err (.custom "only one of smtp username and password specified; provide both or neither") := by
  refine ⟨rfl, rfl, ?_⟩
  intro h
  have h0 : ConfigBuilder.done false false exampleManualNewOk exampleBuilderSmtpOnlyUser
      = .err (.custom "Must specify one of redis_url, sqlite_db or memory_storage") := rfl
  rw [h0] at h
  injection h with h1
  injection h1 with h2
  exact absurd h2 (by decide)

/-- C4 (amended): `done` returns the mismatched SMTP credential error only
when exactly one of username and password is supplied, and, provided the
store options validate, exactly when that is the case; the code condition
is equivalent to exactly one credential being present. -/
theorem C4_smtp_pair_validation (fr fs : Bool) (mn : ManualKeysNew)
    (b : ConfigBuilder) :
    (ConfigBuilder.done fr fs mn b
        = .err (.custom "only one of smtp username and password specified; provide both or neither") →
      (b.smtp_username.isNone != b.smtp_password.isNone) = true) ∧
    (∀ sc, StoreConfig.from_options fr fs b.redis_url b.sqlite_db b.memory_storage
        = .ok sc →
      (ConfigBuilder.done fr fs mn b
          = .err (.custom "only one of smtp username and password specified; provide both or neither") ↔
        (b.smtp_username.isNone != b.smtp_password.isNone) = true)) ∧
    ((b.smtp_username.isNone != b.smtp_password.isNone) = true ↔
      b.smtp_username.isSome ≠ b.smtp_password.isSome) := by
  have hfwd : ConfigBuilder.done fr fs mn b
      = .err (.custom "only one of smtp username and password specified; provide both or neither") →
      (b.smtp_username.isNone != b.smtp_password.isNone) = true := by
    intro h
    unfold ConfigBuilder.done at h
    split at h
    · rename_i e hfo
      injection h with h1
      subst h1
      rcases from_options_error_shape _ _ _ _ _ _ hfo with h3 | h3 | h3 | h3 <;>
        (injection h3 with h4; exact absurd h4 (by decide))
    rename_i sc hfo
    split at h
    · rename_i hsm
      exact hsm
    rename_i hsm
    split at h
    · rename_i e hkm
      injection h with h1
      subst h1
      rcases selectKeyManager_error_shape _ _ _ _ _ hkm with ⟨m, h3⟩ | h3
      · exact absurd h3 (by simp)
      · injection h3 with h4
        exact absurd h4 (by decide)
    rename_i km hkm
    split at h
    · exact DoneResult.noConfusion h
    rename_i pu hpu
    split at h
    · exact DoneResult.noConfusion h
    rename_i fa hfa
    split at h
    · exact DoneResult.noConfusion h
    rename_i ss hss
    exact DoneResult.noConfusion h
  refine ⟨hfwd, ?_, ?_⟩
  · intro sc hfo
    refine ⟨hfwd, ?_⟩
    intro hsm
    unfold ConfigBuilder.done
    rw [hfo]
    simp only [hsm, if_true]
  · cases hu : b.smtp_username <;> cases hp : b.smtp_password <;> simp

/-- C4 witness: with a valid store option and only an SMTP password
supplied, `done` returns exactly the mismatched SMTP credential error. -/
theorem C4_smtp_pair_validation_witness :
    ConfigBuilder.done false false exampleManualNewOk
        { exampleBuilderMemory with smtp_password := some "secret", smtp_username := none }
      = .err (.custom "only one of smtp username and password specified; provide both or neither") :=
  ((C4_smtp_pair_validation false false exampleManualNewOk
      { exampleBuilderMemory with smtp_password := some "secret", smtp_username := none }).2.1
    .memory rfl).mpr rfl

/-- C5 counterexample: a builder that passes every validation but has no
public URL makes `done` abort with a panic, not with a `ConfigError`
returned in the `Result`. -/
theorem C5_missing_required_counterexample :
    ConfigBuilder.done false false exampleManualNewOk exampleBuilderNoUrl
      = .panic "no public url configured" ∧
    ∀ e, ConfigBuilder.done false false exampleManualNewOk exampleBuilderNoUrl
      ≠ .err e := by
  refine ⟨rfl, ?_⟩
  intro e h
  have h0 : ConfigBuilder.done false false exampleManualNewOk exampleBuilderNoUrl
      = .panic "no public url configured" := rfl
  rw [h0] at h
  exact DoneResult.noConfusion h

/-- C5 (amended): validation failures are returned as `ConfigError` values,
but a missing `public_url`, `from_address` or `smtp_server` aborts `done`
through an `expect` panic with a descriptive message, in field order; when
all three are present `done` succeeds. -/
theorem C5_missing_required_panics (fr fs : Bool) (mn : ManualKeysNew)
    (b : ConfigBuilder) (sc : StoreConfig) (km : KeyManagerSender)
    (hfo : StoreConfig.from_options fr fs b.redis_url b.sqlite_db b.memory_storage
      = .ok sc)
    (hsm : (b.smtp_username.isNone != b.smtp_password.isNone) = false)
    (hkm : selectKeyManager mn b (sc.spawn_store (b.storeParams ())) () = .ok km) :
    (b.public_url = none →
      ConfigBuilder.done fr fs mn b = .panic "no public url configured") ∧
    (b.public_url.isSome = true → b.from_address = none →
      ConfigBuilder.done fr fs mn b = .panic "no smtp from address configured") ∧
    (b.public_url.isSome = true → b.from_address.isSome = true → b.smtp_server = none →
      ConfigBuilder.done fr fs mn b = .panic "no smtp outserver address configured") ∧
    (b.public_url.isSome = true → b.from_address.isSome = true → b.smtp_server.isSome = true →
      ∃ c, ConfigBuilder.done fr fs mn b = .ok c) := by
  unfold ConfigBuilder.done
  rw [hfo]
  simp only [hsm, Bool.false_eq_true, if_false]
  rw [hkm]
  refine ⟨?_, ?_, ?_, ?_⟩
  · intro hpu
    rw [hpu]
  · intro hpu hfa
    obtain ⟨u, hu⟩ := Option.isSome_iff_exists.mp hpu
    rw [hu, hfa]
  · intro hpu hfa hss
    obtain ⟨u, hu⟩ := Option.isSome_iff_exists.mp hpu
    obtain ⟨f, hf⟩ := Option.isSome_iff_exists.mp hfa
    rw [hu, hf, hss]
  · intro hpu hfa hss
    obtain ⟨u, hu⟩ := Option.isSome_iff_exists.mp hpu
    obtain ⟨f, hf⟩ := Option.isSome_iff_exists.mp hfa
    obtain ⟨v, hv⟩ := Option.isSome_iff_exists.mp hss
    rw [hu, hf, hv]
    exact ⟨_, rfl⟩

/-- C5 witness: the amended characterization applied to the valid builder
that lacks only a public URL. -/
theorem C5_missing_required_panics_witness :
    ConfigBuilder.done false false exampleManualNewOk exampleBuilderNoUrl
      = .panic "no public url configured" :=
  (C5_missing_required_panics false false exampleManualNewOk exampleBuilderNoUrl
    .memory
    (.rotating (spawn_agent (RotatingKeys.new
      (StoreConfig.memory.spawn_store (exampleBuilderNoUrl.storeParams ()))
      exampleBuilderNoUrl.keys_ttl exampleBuilderNoUrl.signing_algs
      exampleBuilderNoUrl.generate_rsa_command ())))
    rfl rfl rfl).1 rfl

/-- C9 counterexample: a builder with no manual keys, `Rs256` requested and
an empty RSA generation command, but also no store option, fails with the
store option error rather than the RSA generation command error. -/
theorem C9_generate_rsa_counterexample :
    (exampleBuilderNoRsaCommand.keyfiles = [] ∧
     exampleBuilderNoRsaCommand.keytext = none ∧
     exampleBuilderNoRsaCommand.signing_algs.contains .rs256 = true ∧
     exampleBuilderNoRsaCommand.generate_rsa_command = []) ∧
    ConfigBuilder.done false false exampleManualNewOk exampleBuilderNoRsaCommand
      ≠ .err (.custom "generate_rsa_command is required for rotating RSA keys") := by
  refine ⟨⟨rfl, rfl, rfl, rfl⟩, ?_⟩
  intro h
  have h0 : ConfigBuilder.done false false exampleManualNewOk exampleBuilderNoRsaCommand
      = .err (.custom "Must specify one of redis_url, sqlite_db or memory_storage") := rfl
  rw [h0] at h
  injection h with h1
  injection h1 with h2
  exact absurd h2 (by decide)

/-- C9 (amended): with store options and SMTP credentials validating and no
manual key material, `done` fails with the RSA generation command error
exactly under the source condition (`Rs256` requested and empty command);
otherwise the key manager selection produces the rotating variant for any
store handle. -/
theorem C9_generate_rsa_required (fr fs : Bool) (mn : ManualKeysNew)
    (b : ConfigBuilder) (sc : StoreConfig)
    (hfo : StoreConfig.from_options fr fs b.redis_url b.sqlite_db b.memory_storage
      = .ok sc)
    (hsm : (b.smtp_username.isNone != b.smtp_password.isNone) = false)
    (hkf : b.keyfiles = []) (hkt : b.keytext = none) :
    ((b.signing_algs.contains .rs256 && b.generate_rsa_command.isEmpty) = true →
      ConfigBuilder.done fr fs mn b
        = .err (.custom "generate_rsa_command is required for rotating RSA keys")) ∧
    ((b.signing_algs.contains .rs256 && b.generate_rsa_command.isEmpty) = false →
      ∀ store rng, selectKeyManager mn b store rng = .ok (.rotating (spawn_agent
        (RotatingKeys.new store b.keys_ttl b.signing_algs b.generate_rsa_command rng)))) := by
  constructor
  · intro hcond
    unfold ConfigBuilder.done
    rw [hfo]
    simp only [hsm, Bool.false_eq_true, if_false]
    unfold selectKeyManager
    rw [hkf, hkt]
    simp only [List.isEmpty_nil, Bool.not_true, Option.isSome_none, Bool.or_self,
      Bool.false_eq_true, if_false]
    rw [hcond]
    simp only [if_true]
  · intro hcond store rng
    unfold selectKeyManager
    rw [hkf, hkt]
    simp only [List.isEmpty_nil, Bool.not_true, Option.isSome_none, Bool.or_self,
      Bool.false_eq_true, if_false]
    rw [hcond]
    simp only [Bool.false_eq_true, if_false]

/-- C9 witness: a valid in-memory builder with the default `Rs256`
algorithm and an emptied RSA generation command fails with exactly the RSA
generation command error. -/
theorem C9_generate_rsa_required_witness :
    ConfigBuilder.done false false exampleManualNewOk exampleBuilderMemoryNoRsa
      = .err (.custom "generate_rsa_command is required for rotating RSA keys") :=
  (C9_generate_rsa_required false false exampleManualNewOk exampleBuilderMemoryNoRsa
    .memory rfl rfl rfl rfl).1 rfl


/-- Helper: folding inserts over entries whose keys differ from `d` leaves
the lookup of `d` unchanged. -/
theorem mapLookup_foldl_not_key {α : Type} (xs : List (String × α))
    (m : List (String × α)) (d : String) (h : d ∉ xs.map Prod.fst) :
    mapLookup (xs.foldl (fun m p => mapInsert m p.1 p.2) m) d = mapLookup m d := by
  induction xs generalizing m with
  | nil => rfl
  | cons x rest ih =>
    rw [List.map_cons] at h
    have h1 : d ≠ x.1 := fun he => h (by rw [he]; exact List.mem_cons_self _ _)
    have h2 : d ∉ rest.map Prod.fst := fun he => h (List.mem_cons_of_mem _ he)
    rw [List.foldl_cons, ih _ h2]
    simp [mapInsert, mapLookup, h1]

/-- Helper: when keys are unique, folding inserts makes the lookup of a
listed key return its listed value. -/
theorem mapLookup_foldl_mem {α : Type} (xs : List (String × α))
    (m : List (String × α)) (d : String) (l : α)
    (hnd : (xs.map Prod.fst).Nodup) (hmem : (d, l) ∈ xs) :
    mapLookup (xs.foldl (fun m p => mapInsert m p.1 p.2) m) d = some l := by
  induction xs generalizing m with
  | nil => cases hmem
  | cons x rest ih =>
    rw [List.map_cons, List.nodup_cons] at hnd
    rw [List.foldl_cons]
    rcases List.mem_cons.mp hmem with heq | hmem2
    · have hd : d ∉ rest.map Prod.fst := by
        rw [← heq] at hnd
        exact hnd.1
      rw [mapLookup_foldl_not_key rest _ d hd, ← heq]
      simp [mapInsert, mapLookup]
    · exact ih _ hnd.2 hmem2

/-- Helper: the built domain override map keeps the Google default for a
hosted-Google domain with no user-supplied override. -/
theorem mapLookup_buildDomainOverrides_default (gci : Option String)
    (user : List (String × List Link)) (d : String)
    (hg : gci.isSome = true) (hd : d = "gmail.com" ∨ d = "googlemail.com")
    (hnm : d ∉ user.map Prod.fst) :
    mapLookup (buildDomainOverrides gci user) d = some googleLinks := by
  unfold buildDomainOverrides
  rw [mapLookup_foldl_not_key user _ d hnm]
  simp only [hg, if_true]
  rcases hd with hd | hd <;> subst hd <;> decide

/-- C10: for every successful `done` call, the configuration's domain
override map contains every user-supplied override (so a user override for
a hosted-Google domain replaces the Google default), and when a Google
client id is configured, `gmail.com` and `googlemail.com` without a user
override keep the default Google link. -/
theorem C10_domain_overrides (fr fs : Bool) (mn : ManualKeysNew)
    (b : ConfigBuilder) (c : Config)
    (h : ConfigBuilder.done fr fs mn b = .ok c) :
    ((b.domain_overrides.map Prod.fst).Nodup →
      ∀ d l, (d, l) ∈ b.domain_overrides →
        mapLookup c.domain_overrides d = some l) ∧
    (b.google_client_id.isSome = true →
      ∀ d, (d = "gmail.com" ∨ d = "googlemail.com") →
        d ∉ b.domain_overrides.map Prod.fst →
        mapLookup c.domain_overrides d = some googleLinks) := by
  have hdo : c.domain_overrides = buildDomainOverrides b.google_client_id b.domain_overrides := by
    unfold ConfigBuilder.done at h
    split at h
    · simp at h
    rename_i sc hfo
    split at h
    · simp at h
    split at h
    · simp at h
    split at h
    · simp at h
    rename_i pu hpu
    split at h
    · simp at h
    rename_i fa hfa
    split at h
    · simp at h
    rename_i ss hss
    cases h
    rfl
  rw [hdo]
  constructor
  · intro hnd d l hmem
    unfold buildDomainOverrides
    exact mapLookup_foldl_mem _ _ _ _ hnd hmem
  · intro hg d hd hnm
    exact mapLookup_buildDomainOverrides_default _ _ _ hg hd hnm

/-- C10 witness: with a Google client id, the user override supplied for
`gmail.com` wins while `googlemail.com` keeps the Google default. -/
theorem C10_domain_overrides_witness :
    ∃ c, ConfigBuilder.done false false exampleManualNewOk exampleBuilderGoogle
        = .ok c ∧
      mapLookup c.domain_overrides "gmail.com"
        = some [{ rel := Relation.google, href := "https://alt.example.com" }] ∧
      mapLookup c.domain_overrides "googlemail.com" = some googleLinks := by
  cases hdone : ConfigBuilder.done false false exampleManualNewOk exampleBuilderGoogle with
  | ok c =>
    refine ⟨c, rfl, ?_, ?_⟩
    · exact (C10_domain_overrides false false exampleManualNewOk exampleBuilderGoogle
        c hdone).1 (by decide) "gmail.com" _ (by decide)
    · exact (C10_domain_overrides false false exampleManualNewOk exampleBuilderGoogle
        c hdone).2 rfl "googlemail.com" (Or.inr rfl) (by decide)
  | err e =>
    have hsome : (ConfigBuilder.done false false exampleManualNewOk
        exampleBuilderGoogle).getOk.isSome = true := rfl
    rw [hdone] at hsome
    simp [DoneResult.getOk] at hsome
  | panic m =>
    have hsome : (ConfigBuilder.done false false exampleManualNewOk
        exampleBuilderGoogle).getOk.isSome = true := rfl
    rw [hdone] at hsome
    simp [DoneResult.getOk] at hsome


/-- C8: `main` binds the HTTP server to the hard-coded address
`0.0.0.0:3333` on every invocation whose address argument parses,
regardless of the `--address` and `--port` arguments and regardless of the
socket address printed in the listening message. -/
theorem C8_main_binds_hardcoded (args : Args) :
    (∀ r, mainRun args = some r → r.boundAddr = "0.0.0.0:3333") ∧
    (∀ ip, ipAddrFromStr args.flag_address = some ip →
      mainRun args = some
        { printedLine := "Listening on http://" ++ socketAddrDisplay ip args.flag_port
          boundAddr := "0.0.0.0:3333" }) := by
  constructor
  · intro r h
    unfold mainRun at h
    split at h
    · exact Option.noConfusion h
    injection h with h1
    rw [← h1]
  · intro ip h
    unfold mainRun
    rw [h]

/-- C8 witness: invoked with address `127.0.0.1` and port `8080`, `main`
prints that socket but still binds `0.0.0.0:3333`. -/
theorem C8_main_binds_hardcoded_witness :
    mainRun ⟨"config.json", "127.0.0.1", 8080⟩ = some
      { printedLine := "Listening on http://" ++ socketAddrDisplay (.v4 127 0 0 1) 8080
        boundAddr := "0.0.0.0:3333" } :=
  (C8_main_binds_hardcoded ⟨"config.json", "127.0.0.1", 8080⟩).2 (.v4 127 0 0 1) (by decide)


/-- Helper: removing the records for a key leaves no record for that key. -/
theorem find?_removeRecords (l : List StoreRecord) (k : String) :
    List.find? (fun r => r.key == k) (removeRecords l k) = none := by
  induction l with
  | nil => rfl
  | cons r rest ih =>
    simp only [removeRecords, List.filter_cons] at ih ⊢
    by_cases hr : (r.key == k) = true
    · simp [hr, ih]
    · simp only [Bool.not_eq_true] at hr
      simp [hr, List.find?_cons, ih]

/-- Helper: removing the records for a key that has none is a no-op. -/
theorem removeRecords_eq_self (l : List StoreRecord) (k : String)
    (h : List.find? (fun r => r.key == k) l = none) : removeRecords l k = l := by
  induction l with
  | nil => rfl
  | cons r rest ih =>
    by_cases hr : (r.key == k) = true
    · have h2 : List.find? (fun x => x.key == k) (r :: rest) = some r :=
        List.find?_cons_of_pos rest hr
      rw [h2] at h
      exact Option.noConfusion h
    · rw [List.find?_cons_of_neg _ (by simpa using hr)] at h
      simp only [Bool.not_eq_true] at hr
      simp only [removeRecords, List.filter_cons, hr, Bool.not_false, if_true]
      exact congrArg (List.cons r) (ih h)

/-- Helper: incrementing a key with no record creates the counter at 1 with
a fresh expiry. -/
theorem increment_fresh (s : MemoryStore) (now : Nat) (k : String) (ttl : Nat)
    (h : findRecord s k = none) :
    s.increment now k ttl
      = (1, ⟨⟨k, .counter 1, now + ttl⟩ :: removeRecords s.records k⟩) := by
  unfold MemoryStore.increment
  rw [h]

/-- Helper: incrementing a live counter returns the next value and keeps
the expiry, with the rest of the records untouched. -/
theorem increment_live (rest : List StoreRecord) (j e now ttl : Nat) (k : String)
    (hrest : List.find? (fun r => r.key == k) rest = none) (hlt : now < e) :
    MemoryStore.increment ⟨⟨k, .counter j, e⟩ :: rest⟩ now k ttl
      = (j + 1, ⟨⟨k, .counter (j + 1), e⟩ :: rest⟩) := by
  unfold MemoryStore.increment findRecord
  rw [show (⟨⟨k, .counter j, e⟩ :: rest⟩ : MemoryStore).records
      = ⟨k, .counter j, e⟩ :: rest from rfl]
  rw [List.find?_cons_of_pos _ (by simp)]
  have hne : ¬ (e ≤ now) := Nat.not_le.mpr hlt
  simp only [hne, if_false]
  simp only [removeRecords, List.filter_cons, beq_self_eq_true, Bool.not_true,
    Bool.false_eq_true, if_false]
  rw [show List.filter (fun r => !(r.key == k)) rest = removeRecords rest k from rfl,
    removeRecords_eq_self rest k hrest]

/-- Helper: starting from a live counter at `j`, the next `n` serialized
increments return `j+1` through `j+n` in order. -/
theorem incrementN_live (n : Nat) (rest : List StoreRecord)
    (j e now ttl : Nat) (k : String)
    (hrest : List.find? (fun r => r.key == k) rest = none) (hlt : now < e) :
    incrementN now k ttl n ⟨⟨k, .counter j, e⟩ :: rest⟩
      = (List.range' (j + 1) n, ⟨⟨k, .counter (j + n), e⟩ :: rest⟩) := by
  induction n generalizing j with
  | zero => simp [incrementN]
  | succ n ih =>
    simp only [incrementN]
    rw [increment_live rest j e now ttl k hrest hlt]
    simp only []
    rw [ih (j + 1)]
    refine congrArg₂ Prod.mk ?_ ?_
    · rw [List.range'_succ]
    · have : j + 1 + n = j + (n + 1) := by omega
      rw [this]

/-- C6 (amended): on the spec-modelled store, `put(k, v, ttl)` followed by
an immediate `get(k)` returns the value provided the ttl is positive; once
the current time reaches the expiry `get(k)` returns `None`; and `get`
never returns an expired record. -/
theorem C6_put_get_ttl (s : MemoryStore) (now later : Nat) (k v : String)
    (ttl : Nat) :
    (0 < ttl → (s.put now k v ttl).get now k = some (.bytes v)) ∧
    (now + ttl ≤ later → (s.put now k v ttl).get later k = none) ∧
    (∀ val, s.get now k = some val →
      ∃ r, findRecord s k = some r ∧ r.value = val ∧ now < r.expires_at) := by
  refine ⟨?_, ?_, ?_⟩
  · intro h
    unfold MemoryStore.get MemoryStore.put findRecord
    rw [show (⟨⟨k, .bytes v, now + ttl⟩ :: removeRecords s.records k⟩ : MemoryStore).records
        = ⟨k, .bytes v, now + ttl⟩ :: removeRecords s.records k from rfl]
    rw [List.find?_cons_of_pos _ (by simp)]
    have hne : ¬ (now + ttl ≤ now) := by omega
    simp [hne]
  · intro h
    unfold MemoryStore.get MemoryStore.put findRecord
    rw [show (⟨⟨k, .bytes v, now + ttl⟩ :: removeRecords s.records k⟩ : MemoryStore).records
        = ⟨k, .bytes v, now + ttl⟩ :: removeRecords s.records k from rfl]
    rw [List.find?_cons_of_pos _ (by simp)]
    simp [h]
  · intro val h
    unfold MemoryStore.get at h
    cases hf : findRecord s k with
    | none => rw [hf] at h; exact Option.noConfusion h
    | some r =>
      rw [hf] at h
      by_cases he : r.expires_at ≤ now
      · simp [he] at h
      · simp only [he, if_false, Option.some.injEq] at h
        exact ⟨r, rfl, h, Nat.lt_of_not_le he⟩

/-- C6 counterexample: with a zero ttl the record expires at the moment it
is written, so an immediate `get` does not return the value. -/
theorem C6_put_get_zero_ttl_counterexample :
    ((⟨[]⟩ : MemoryStore).put 0 "k" "v" 0).get 0 "k" = none ∧
    ((⟨[]⟩ : MemoryStore).put 0 "k" "v" 0).get 0 "k" ≠ some (.bytes "v") := by
  constructor <;> decide

/-- C6 witness: a one minute ttl read back immediately and at the expiry
instant. -/
theorem C6_put_get_ttl_witness :
    ((⟨[]⟩ : MemoryStore).put 0 "k" "v" 60).get 0 "k" = some (.bytes "v") ∧
    ((⟨[]⟩ : MemoryStore).put 0 "k" "v" 60).get 60 "k" = none :=
  ⟨(C6_put_get_ttl ⟨[]⟩ 0 60 "k" "v" 60).1 (by decide),
   (C6_put_get_ttl ⟨[]⟩ 0 60 "k" "v" 60).2.1 (by decide)⟩

/-- C7 (amended): on the spec-modelled store with the agent runtime
serializing the callers, N increments on a key with no prior record and a
positive ttl return exactly the values 1 through N in order, each exactly
once. -/
theorem C7_increment_serialized (n : Nat) (s : MemoryStore) (now : Nat)
    (k : String) (ttl : Nat)
    (habs : findRecord s k = none) (httl : 1 ≤ ttl) :
    (incrementN now k ttl n s).1 = List.range' 1 n := by
  cases n with
  | zero => rfl
  | succ n =>
    simp only [incrementN]
    rw [increment_fresh s now k ttl habs]
    simp only []
    rw [incrementN_live n (removeRecords s.records k) 1 (now + ttl) now ttl k
      (find?_removeRecords _ _) (by omega)]
    rw [List.range'_succ]

/-- C7 counterexample: with a zero ttl each increment sees an expired
counter and restarts at 1, so two increments return a duplicated value
instead of 1 then 2. -/
theorem C7_increment_zero_ttl_counterexample :
    (incrementN 0 "k" 0 2 ⟨[]⟩).1 = [1, 1] ∧
    (incrementN 0 "k" 0 2 ⟨[]⟩).1 ≠ List.range' 1 2 := by
  constructor <;> decide

/-- C7 witness: three increments on a fresh key with a one minute ttl. -/
theorem C7_increment_serialized_witness :
    (incrementN 0 "k" 60 3 ⟨[]⟩).1 = [1, 2, 3] :=
  C7_increment_serialized 3 ⟨[]⟩ 0 "k" 60 rfl (by decide)

end Portier
